import Mathlib

/-!
Verification of the Syntrio session/profile/HTTP-client core.

The definitions below are a shallow embedding of the TypeScript sources:

* `SessionManager` — the session lifecycle manager (sessionManager.ts):
  session storage slot, activity handling, expiry, work-in-progress
  backup/restore, time formatting.
* `UserStorageManager` — the local profile store (userStorage.ts).
* `TavusAPI` — the conversation client (src/lib/tavusApi.ts): request
  validation, rolling-hour rate limiter, retrying HTTP wrapper.
* `LingoAPI` — the translation client: validation, same-language
  shortcut, rate limiter, retrying HTTP wrapper.

Modelling conventions:

* Timestamps and millisecond durations are `Int` (JS numbers used as
  integral epoch milliseconds).
* `localStorage` is a record of typed slots.  A slot holds
  `StoredVal α`: `absent` (key missing), `corrupt` (present but
  `JSON.parse` throws or the value is malformed), or `value a`
  (well-formed record).  `try/catch` around `JSON.parse` becomes a
  match on `corrupt`.
* The network is an oracle `Nat → NetOutcome α` giving the outcome of
  the fetch performed on each attempt number.  Every modelled request
  function also returns the number of network calls actually made, so
  "no network call" claims are about that counter.
* JS `Math.floor(a / b)` (real division, b > 0) is `Int.fdiv`; the JS
  remainder operator `%` (sign of the dividend) is `Int.tmod`.
* JS string truthiness: a `string` is falsy iff it is `""`; an optional
  string is falsy iff it is `none` or `some ""`.
-/

/-- JS `String.prototype.trim()`: strips whitespace from both ends.
(Implemented over the character list so that concrete instances reduce
in the kernel.) -/
def jsTrim (s : String) : String :=
  ⟨((s.data.dropWhile Char.isWhitespace).reverse.dropWhile Char.isWhitespace).reverse⟩

/-- A persisted localStorage slot: missing, malformed JSON, or a
well-formed record. -/
inductive StoredVal (α : Type) where
  | absent : StoredVal α
  | corrupt : StoredVal α
  | value : α → StoredVal α
deriving DecidableEq, Repr

/-- `SessionData` record persisted under the session key
(sessionManager.ts). -/
structure SessionData where
  userId : String
  email : String
  name : String
  loginTime : Int
  lastActivity : Int
  expiresAt : Int
  sessionId : String
  deviceInfo : String
deriving DecidableEq, Repr

/-- `WorkInProgress` snapshot persisted under the work-backup key.
The untyped `voiceSettings: any` payload is modelled as an opaque
string. -/
structure WorkInProgress where
  textContent : String
  selectedLanguage : String
  voiceSettings : String
  timestamp : Int
deriving DecidableEq, Repr

/-- Stored user record (userStorage.ts). -/
structure StoredUser where
  id : String
  email : String
  name : String
  password : String
  createdAt : String
  updatedAt : String
deriving DecidableEq, Repr

/-- User profile (never includes the password hash). -/
structure UserProfile where
  id : String
  email : String
  name : String
  createdAt : String
  updatedAt : String
deriving DecidableEq, Repr

/-- The localStorage keyspace: the four persisted records, each under
its fixed key. -/
structure Storage where
  session : StoredVal SessionData
  workBackup : StoredVal WorkInProgress
  users : StoredVal (List StoredUser)
  currentUser : StoredVal UserProfile
deriving DecidableEq, Repr

namespace SessionManager

/-- `SESSION_DURATION = 24 * 60 * 60 * 1000`. -/
def SESSION_DURATION : Int := 24 * 60 * 60 * 1000

/-- `WARNING_TIME = 5 * 60 * 1000`. -/
def WARNING_TIME : Int := 5 * 60 * 1000

/-- `ACTIVITY_THRESHOLD = 30 * 1000`. -/
def ACTIVITY_THRESHOLD : Int := 30 * 1000

/-- In-memory state of the `SessionManager` singleton: the storage it
owns plus its mutable fields.  Timers are modelled by their absolute
fire time (`none` = not armed). -/
structure ManagerState where
  storage : Storage
  lastActivityTime : Int
  activityTimer : Option Int
  warningTimer : Option Int
  expiryTimer : Option Int
deriving DecidableEq, Repr

/-- `clearTimers()`: cancels all three timers. -/
def clearTimers (st : ManagerState) : ManagerState :=
  { st with activityTimer := none, warningTimer := none, expiryTimer := none }

/-- `clearSession()`: removes the session key and clears the timers. -/
def clearSession (st : ManagerState) : ManagerState :=
  clearTimers { st with storage := { st.storage with session := .absent } }

/-- `saveSession(sessionData)`: writes the session record to its key. -/
def saveSession (sd : SessionData) (st : ManagerState) : ManagerState :=
  { st with storage := { st.storage with session := .value sd } }

/-- `backupWorkInProgress(workData?)`: when a snapshot is supplied it is
stamped with the capture time and written to the single backup slot;
when the argument is omitted nothing is written. -/
def backupWorkInProgress (workData : Option WorkInProgress) (now : Int)
    (st : ManagerState) : ManagerState :=
  match workData with
  | some wd =>
      { st with storage :=
          { st.storage with workBackup := .value { wd with timestamp := now } } }
  | none => st

/-- `expireSession()`: backs up work in progress (called with no
argument), deletes the session record and clears all timers.  The
"session expired" callback is a UI effect outside the model. -/
def expireSession (now : Int) (st : ManagerState) : ManagerState :=
  clearTimers (clearSession (backupWorkInProgress none now st))

/-- `getCurrentSession()`: reads the session key; a missing key yields
`null`; a record with `Date.now() > expiresAt` triggers
`expireSession()` and yields `null`; malformed JSON is caught, the key
is cleared via `clearSession()`, and `null` is returned. -/
def getCurrentSession (now : Int) (st : ManagerState) :
    Option SessionData × ManagerState :=
  match st.storage.session with
  | .absent => (none, st)
  | .corrupt => (none, clearSession st)
  | .value sd =>
      if now > sd.expiresAt then (none, expireSession now st)
      else (some sd, st)

/-- `isSessionValid()`: `getCurrentSession() !== null && Date.now() <
session.expiresAt`. -/
def isSessionValid (now : Int) (st : ManagerState) : Bool × ManagerState :=
  match getCurrentSession now st with
  | (some sd, st') => (decide (now < sd.expiresAt), st')
  | (none, st') => (false, st')

/-- `updateSessionActivity()`: refreshes `lastActivity`, extends
`expiresAt` by a full `SESSION_DURATION` only when the remaining
lifetime has dropped below half the session duration, and saves the
record.  It does not touch the timers. -/
def updateSessionActivity (now : Int) (st : ManagerState) : ManagerState :=
  match getCurrentSession now st with
  | (none, st') => st'
  | (some s, st') =>
      let s1 := { s with lastActivity := now }
      let s2 :=
        if s1.expiresAt - now < SESSION_DURATION / 2 then
          { s1 with expiresAt := now + SESSION_DURATION }
        else s1
      saveSession s2 st'

/-- `handleUserActivity()`: debounced activity signal; only acts when
more than `ACTIVITY_THRESHOLD` has elapsed since the last recorded
activity. -/
def handleUserActivity (now : Int) (st : ManagerState) : ManagerState :=
  if now - st.lastActivityTime > ACTIVITY_THRESHOLD then
    updateSessionActivity now { st with lastActivityTime := now }
  else st

/-- `startSessionTimers(session)`: clears the timers then arms the
warning timer for `expiresAt − WARNING_TIME` and the expiry timer for
`expiresAt`, each only when still in the future.  (When the warning
moment is already past but expiry is not, the code immediately invokes
the warning callback — a UI effect outside the model.) -/
def startSessionTimers (now : Int) (session : SessionData)
    (st : ManagerState) : ManagerState :=
  let st1 := clearTimers st
  let timeUntilWarning := session.expiresAt - now - WARNING_TIME
  let timeUntilExpiry := session.expiresAt - now
  { st1 with
    warningTimer :=
      if timeUntilWarning > 0 then some (now + timeUntilWarning) else none
    expiryTimer :=
      if timeUntilExpiry > 0 then some (now + timeUntilExpiry) else none }

/-- `extendSession()`: unconditionally resets `expiresAt` to
`now + SESSION_DURATION`, saves, and re-arms the timers. -/
def extendSession (now : Int) (st : ManagerState) : Bool × ManagerState :=
  match getCurrentSession now st with
  | (none, st') => (false, st')
  | (some s, st') =>
      let s1 := { s with expiresAt := now + SESSION_DURATION, lastActivity := now }
      let st2 := saveSession s1 st'
      (true, startSessionTimers now s1 st2)

/-- `restoreWorkInProgress()`: returns the backup slot contents only if
captured within the last 24 hours; an older snapshot is treated as
absent without being deleted; malformed JSON is caught and `null`
returned (the key is not cleared). -/
def restoreWorkInProgress (now : Int) (st : ManagerState) :
    Option WorkInProgress × ManagerState :=
  match st.storage.workBackup with
  | .absent => (none, st)
  | .corrupt => (none, st)
  | .value w =>
      if now - w.timestamp < 24 * 60 * 60 * 1000 then (some w, st)
      else (none, st)

/-- `clearWorkBackup()`: removes the backup key. -/
def clearWorkBackup (st : ManagerState) : ManagerState :=
  { st with storage := { st.storage with workBackup := .absent } }

/-- `formatTimeRemaining(milliseconds)`:
`hours = Math.floor(ms / 3600000)`,
`minutes = Math.floor((ms % 3600000) / 60000)` (JS `%` keeps the sign
of the dividend), rendered as `Hh Mm` / `Mm` / `<1m`. -/
def formatTimeRemaining (ms : Int) : String :=
  let hours := Int.fdiv ms (1000 * 60 * 60)
  let minutes := Int.fdiv (Int.tmod ms (1000 * 60 * 60)) (1000 * 60)
  if hours > 0 then toString hours ++ "h " ++ toString minutes ++ "m"
  else if minutes > 0 then toString minutes ++ "m"
  else "<1m"

end SessionManager

namespace UserStorageManager

/-- `getAllUsers()`: `users ? JSON.parse(users) : []`, with a parse
failure caught and `[]` returned (the key is left as is). -/
def getAllUsers (s : Storage) : List StoredUser × Storage :=
  match s.users with
  | .absent => ([], s)
  | .corrupt => ([], s)
  | .value us => (us, s)

/-- `getCurrentUser()`: the current-user pointer, `null` on a missing
key or a parse failure (the key is left as is). -/
def getCurrentUser (s : Storage) : Option UserProfile × Storage :=
  match s.currentUser with
  | .absent => (none, s)
  | .corrupt => (none, s)
  | .value u => (some u, s)

end UserStorageManager

/-- Outcome of one `fetch` attempt, supplied by a network oracle
indexed by the attempt number.  `httpErr status msg` is a non-ok HTTP
response whose body-derived error text is `msg` (the
`errorData.error || errorData.message || ... || default` chain);
`timeout` is an `AbortError`; `netErr` is a `Failed to fetch` /
`NetworkError`; `otherErr` is any other thrown error. -/
inductive NetOutcome (α : Type) where
  | ok : α → NetOutcome α
  | httpErr : Nat → String → NetOutcome α
  | timeout : NetOutcome α
  | netErr : NetOutcome α
  | otherErr : String → NetOutcome α
deriving DecidableEq, Repr

/-- Shared shape of the per-client rolling-hour rate limiter state. -/
structure RateState where
  requestCount : Nat
  lastResetTime : Int
deriving DecidableEq, Repr

namespace TavusAPI

/-- `rateLimit = 50` requests per hour. -/
def rateLimit : Nat := 50

/-- `maxRetries = 3`. -/
def maxRetries : Nat := 3

/-- `checkRateLimit()`: `hoursPassed = (now − lastResetTime) / 3600000`;
when `hoursPassed >= 1` — over the reals, exactly when at least one
hour has elapsed — the counter resets and the reset time moves to
`now`; the check passes iff `requestCount < rateLimit`. -/
def checkRateLimit (now : Int) (st : RateState) : Bool × RateState :=
  let st1 :=
    if now - st.lastResetTime ≥ 1000 * 60 * 60 then
      { requestCount := 0, lastResetTime := now }
    else st
  (decide (st1.requestCount < rateLimit), st1)

/-- The `switch (response.status)` mapping of `makeRequest` to
user-facing messages; `m` is the body-derived message reaching the
switch, kept by the default branch and embedded by the 400 branch. -/
def statusMessage (status : Nat) (m : String) : String :=
  if status = 401 then "Invalid API key. Please check your Tavus API key."
  else if status = 429 then "Rate limit exceeded. Please try again later."
  else if status = 400 then "Invalid request parameters: " ++ m
  else if status = 402 then
    "Insufficient credits or conversation minutes. Please check your Tavus account."
  else if status = 404 then "Replica not found. Please check your replica ID."
  else if status = 500 ∨ status = 502 ∨ status = 503 ∨ status = 504 then
    "Tavus service is temporarily unavailable. Please try again later."
  else m

/-- `makeRequest(endpoint, method, body?, apiKey?, attempt = 1)`:
checks the local rate limiter (throwing locally when exceeded, with no
fetch), increments the request counter, performs the fetch, and
retries — with attempt-scaled delay, a timing effect outside the model
— on HTTP 5xx, timeout and network error while `attempt ≤ maxRetries`;
other failures are thrown.  Returns the thrown-or-returned outcome,
the rate state, and the number of fetches performed. -/
def makeRequest {α : Type} (endpoint method : String)
    (oracle : Nat → NetOutcome α) (now : Int) (st : RateState)
    (attempt : Nat) : Except String α × RateState × Nat :=
  match checkRateLimit now st with
  | (false, st1) => (.error "Rate limit exceeded. Please try again later.", st1, 0)
  | (true, st1) =>
    let st2 := { st1 with requestCount := st1.requestCount + 1 }
    match oracle attempt with
    | .ok d => (.ok d, st2, 1)
    | .httpErr status m =>
        if h : 500 ≤ status ∧ attempt ≤ maxRetries then
          let (r, st3, n) := makeRequest endpoint method oracle now st2 (attempt + 1)
          (r, st3, n + 1)
        else (.error (statusMessage status m), st2, 1)
    | .timeout =>
        if h : attempt ≤ maxRetries then
          let (r, st3, n) := makeRequest endpoint method oracle now st2 (attempt + 1)
          (r, st3, n + 1)
        else (.error "Conversation request timed out. Please try again.", st2, 1)
    | .netErr =>
        if h : attempt ≤ maxRetries then
          let (r, st3, n) := makeRequest endpoint method oracle now st2 (attempt + 1)
          (r, st3, n + 1)
        else
          (.error "Unable to connect to conversation service. Please check your internet connection.",
           st2, 1)
    | .otherErr msg => (.error msg, st2, 1)
termination_by maxRetries + 1 - attempt
decreasing_by
  all_goals simp [maxRetries] at *
  all_goals omega

/-- JSON data of a successful Tavus response, as read by the client. -/
structure TavusData where
  conversation_id : Option String
  conversation_url : Option String
  status : Option String
  participants : Option Nat
  duration : Option Nat
  error : Option String
  expires_at : Option String
deriving DecidableEq, Repr

/-- `ConversationStatus` returned by `getConversationStatus`. -/
structure ConversationStatus where
  conversation_id : String
  status : Option String
  conversation_url : Option String
  participants : Nat
  duration : Nat
  error : Option String
  expires_at : Option String
deriving DecidableEq, Repr

/-- `getConversationStatus(conversationId)`: a GET through
`makeRequest`; any error is caught and `null` returned. -/
def getConversationStatus (conversationId : String)
    (oracle : Nat → NetOutcome TavusData) (now : Int) (st : RateState) :
    Option ConversationStatus × RateState × Nat :=
  match makeRequest ("/conversations/" ++ conversationId) "GET" oracle now st 1 with
  | (.ok d, st', n) =>
      (some { conversation_id := conversationId
              status := d.status
              conversation_url := d.conversation_url
              participants := d.participants.getD 0
              duration := d.duration.getD 0
              error := d.error
              expires_at := d.expires_at }, st', n)
  | (.error _, st', n) => (none, st', n)

/-- `ConversationRequest` as passed to `createConversation`.
`conversational_context` is an optional field; `properties` are opaque
to the validated logic and omitted from the model. -/
structure ConversationRequest where
  replica_id : String
  conversation_name : String
  custom_greeting : String
  conversational_context : Option String
deriving DecidableEq, Repr

/-- JS truthiness of the optional context field:
`!!request.conversational_context`. -/
def ctxTruthy (c : Option String) : Bool :=
  match c with
  | none => false
  | some s => decide (s ≠ "")

/-- `validateConversationRequest(request)`: the fail-fast validation
cascade; `none` means valid, `some e` is the error of the first
violated rule. -/
def validateConversationRequest (r : ConversationRequest) : Option String :=
  if r.replica_id = "" ∨ jsTrim r.replica_id = "" then
    some "Replica ID is required for conversation creation"
  else if r.conversation_name = "" ∨ jsTrim r.conversation_name = "" then
    some "Conversation name is required"
  else if r.custom_greeting = "" ∨ jsTrim r.custom_greeting = "" then
    some "Custom greeting is required for conversation"
  else if r.custom_greeting.length > 500 then
    some "Custom greeting exceeds maximum length of 500 characters"
  else if ctxTruthy r.conversational_context ∧
      (r.conversational_context.getD "").length > 2000 then
    some "Conversational context exceeds maximum length of 2000 characters"
  else none

/-- `formatConversationalContext(userInput)`: deterministic elaboration
of the user topic. -/
def formatConversationalContext (userInput : String) : String :=
  if userInput = "" ∨ jsTrim userInput = "" then ""
  else
    "The user wants to discuss: " ++ jsTrim userInput ++
    " Please engage directly with this topic without asking \x22how can I help you?\x22" ++
    " Start the conversation by acknowledging their interest in this subject and provide relevant insights or questions."

/-- `generateContextAwareGreeting(userInput)`: greeting derived from
the first sentence of the topic, truncated at 50 characters. -/
def generateContextAwareGreeting (userInput : String) : String :=
  if userInput = "" ∨ jsTrim userInput = "" then
    "Hello! I\x27m your AI assistant. How can I help you today?"
  else
    let firstSentence := jsTrim (((jsTrim userInput).splitOn ".").headD "")
    let shortTopic :=
      if firstSentence.length > 50 then firstSentence.take 47 ++ "..."
      else firstSentence
    "Hello! I see you\x27d like to discuss " ++ shortTopic.toLower ++
    ". I\x27m excited to explore this topic with you and share insights that might be helpful. Let\x27s dive right in!"

/-- Mutable conversation-usage tracking of the client. -/
structure ConversationUsage where
  total_minutes_used : Int
  total_minutes_available : Int
  remaining_minutes : Int
  current_month_usage : Int
deriving DecidableEq, Repr

/-- `ConversationResponse` returned by `createConversation`. -/
structure ConversationResponse where
  success : Bool
  conversation_id : Option String
  conversation_url : Option String
  status : Option String
  error : Option String
  expires_at : Option String
deriving DecidableEq, Repr

/-- `createConversation(request)`: validates (fail fast), checks the
remaining-minutes counter, synthesizes context and greeting, POSTs via
`makeRequest`, and maps a thrown error to a failure response.  Returns
the response, the rate state, the usage state, and the number of
fetches performed. -/
def createConversation (r : ConversationRequest)
    (oracle : Nat → NetOutcome TavusData) (now : Int) (st : RateState)
    (usage : ConversationUsage) :
    ConversationResponse × RateState × ConversationUsage × Nat :=
  match validateConversationRequest r with
  | some e =>
      ({ success := false, conversation_id := none, conversation_url := none,
         status := none, error := some e, expires_at := none }, st, usage, 0)
  | none =>
    if usage.remaining_minutes ≤ 0 then
      ({ success := false, conversation_id := none, conversation_url := none,
         status := none,
         error := some "No conversation minutes remaining. Please check your Tavus account.",
         expires_at := none }, st, usage, 0)
    else
      let _formattedContext :=
        if ctxTruthy r.conversational_context then
          formatConversationalContext (r.conversational_context.getD "")
        else ""
      let _contextAwareGreeting :=
        if ctxTruthy r.conversational_context then
          generateContextAwareGreeting (r.conversational_context.getD "")
        else r.custom_greeting
      match makeRequest "/conversations" "POST" oracle now st 1 with
      | (.ok d, st', n) =>
          ({ success := true, conversation_id := d.conversation_id,
             conversation_url := d.conversation_url,
             status := some (d.status.getD "creating"),
             error := none, expires_at := d.expires_at },
           st', { usage with current_month_usage := usage.current_month_usage + 1 }, n)
      | (.error e, st', n) =>
          ({ success := false, conversation_id := none, conversation_url := none,
             status := none, error := some e, expires_at := none }, st', usage, n)

end TavusAPI

namespace LingoAPI

/-- `rateLimit = 100` requests per hour. -/
def rateLimit : Nat := 100

/-- `maxRetries = 3`. -/
def maxRetries : Nat := 3

/-- A supported-language entry. -/
structure LanguageOption where
  code : String
  name : String
  flag : String
  nativeName : String
deriving DecidableEq, Repr

/-- The fixed list of ten supported languages. -/
def supportedLanguages : List LanguageOption :=
  [⟨"en", "English", "🇺🇸", "English"⟩,
   ⟨"es", "Spanish", "🇪🇸", "Español"⟩,
   ⟨"fr", "French", "🇫🇷", "Français"⟩,
   ⟨"de", "German", "🇩🇪", "Deutsch"⟩,
   ⟨"it", "Italian", "🇮🇹", "Italiano"⟩,
   ⟨"pt", "Portuguese", "🇧🇷", "Português"⟩,
   ⟨"ja", "Japanese", "🇯🇵", "日本語"⟩,
   ⟨"ko", "Korean", "🇰🇷", "한국어"⟩,
   ⟨"zh", "Chinese", "🇨🇳", "中文"⟩,
   ⟨"ar", "Arabic", "🇸🇦", "العربية"⟩]

/-- `getLanguageByCode(code)`. -/
def getLanguageByCode (code : String) : Option LanguageOption :=
  supportedLanguages.find? (fun lang => lang.code = code)

/-- `checkRateLimit()`: identical shape to the conversation client but
with its own counter and a quota of 100. -/
def checkRateLimit (now : Int) (st : RateState) : Bool × RateState :=
  let st1 :=
    if now - st.lastResetTime ≥ 1000 * 60 * 60 then
      { requestCount := 0, lastResetTime := now }
    else st
  (decide (st1.requestCount < rateLimit), st1)

/-- `TranslationRequest`. -/
structure TranslationRequest where
  text : String
  target_language : String
  source_language : Option String
deriving DecidableEq, Repr

/-- `TranslationResponse`. -/
structure TranslationResponse where
  success : Bool
  translated_text : Option String
  error : Option String
  detected_language : Option String
deriving DecidableEq, Repr

/-- `validateRequest(request)`: fail-fast cascade; `none` = valid. -/
def validateRequest (r : TranslationRequest) : Option String :=
  if r.text = "" ∨ jsTrim r.text = "" then
    some "Text content is required for translation"
  else if r.text.length > 1000 then
    some "Text content exceeds maximum length of 1000 characters"
  else if r.target_language = "" then
    some "Target language is required"
  else if (getLanguageByCode r.target_language).isNone then
    some "Unsupported target language"
  else if (match r.source_language with
           | some s => s ≠ "" && (getLanguageByCode s).isNone
           | none => false : Bool) then
    some "Unsupported source language"
  else none

/-- The `switch (response.status)` message mapping of the translation
client. -/
def statusMessage (status : Nat) (m : String) : String :=
  if status = 401 then "Invalid API key. Please check your Lingo.dev API key."
  else if status = 429 then "Rate limit exceeded. Please try again later."
  else if status = 400 then "Invalid request parameters: " ++ m
  else if status = 500 ∨ status = 502 ∨ status = 503 ∨ status = 504 then
    "Lingo.dev service is temporarily unavailable. Please try again later."
  else m

/-- JSON data of a 2xx translation response. -/
structure LingoData where
  translated_text : Option String
  detected_language : Option String
deriving DecidableEq, Repr

/-- `makeRequest(request, apiKey?, attempt = 1)`: checks the rate
limiter (throwing locally when exceeded, with no fetch), increments
the counter, fetches, retries on 5xx/timeout/network error while
`attempt ≤ maxRetries`, and otherwise returns a failure
`TranslationResponse` rather than throwing; a 2xx body without
`translated_text` is a hard error. -/
def makeRequest (oracle : Nat → NetOutcome LingoData) (now : Int)
    (st : RateState) (attempt : Nat) :
    Except String TranslationResponse × RateState × Nat :=
  match checkRateLimit now st with
  | (false, st1) => (.error "Rate limit exceeded. Please try again later.", st1, 0)
  | (true, st1) =>
    let st2 := { st1 with requestCount := st1.requestCount + 1 }
    match oracle attempt with
    | .ok d =>
        match d.translated_text with
        | none =>
            (.ok { success := false, translated_text := none,
                   error := some "Invalid response format from translation service",
                   detected_language := none }, st2, 1)
        | some t =>
            (.ok { success := true, translated_text := some t,
                   error := none, detected_language := d.detected_language },
             st2, 1)
    | .httpErr status m =>
        if h : 500 ≤ status ∧ attempt ≤ maxRetries then
          let (r, st3, n) := makeRequest oracle now st2 (attempt + 1)
          (r, st3, n + 1)
        else
          (.ok { success := false, translated_text := none,
                 error := some (statusMessage status m), detected_language := none },
           st2, 1)
    | .timeout =>
        if h : attempt ≤ maxRetries then
          let (r, st3, n) := makeRequest oracle now st2 (attempt + 1)
          (r, st3, n + 1)
        else
          (.ok { success := false, translated_text := none,
                 error := some "Translation request timed out. Please try again.",
                 detected_language := none }, st2, 1)
    | .netErr =>
        if h : attempt ≤ maxRetries then
          let (r, st3, n) := makeRequest oracle now st2 (attempt + 1)
          (r, st3, n + 1)
        else
          (.ok { success := false, translated_text := none,
                 error := some "Unable to connect to translation service. Please check your internet connection.",
                 detected_language := none }, st2, 1)
    | .otherErr _ =>
        (.ok { success := false, translated_text := none,
               error := some "An unexpected error occurred during translation. Please try again.",
               detected_language := none }, st2, 1)
termination_by maxRetries + 1 - attempt
decreasing_by
  all_goals simp [maxRetries] at *
  all_goals omega

/-- `translateText(request)`: validates; when the (truthy) source
language equals the target it returns the original text tagged with
the detected language, with no network call; otherwise it calls
`makeRequest`, catching a thrown error into a generic failure. -/
def translateText (r : TranslationRequest)
    (oracle : Nat → NetOutcome LingoData) (now : Int) (st : RateState) :
    TranslationResponse × RateState × Nat :=
  match validateRequest r with
  | some e =>
      ({ success := false, translated_text := none, error := some e,
         detected_language := none }, st, 0)
  | none =>
    if (match r.source_language with
        | some s => s ≠ "" && s = r.target_language
        | none => false : Bool) then
      ({ success := true, translated_text := some r.text, error := none,
         detected_language := r.source_language }, st, 0)
    else
      match makeRequest oracle now st 1 with
      | (.ok resp, st', n) => (resp, st', n)
      | (.error _, st', n) =>
          ({ success := false, translated_text := none,
             error := some "An unexpected error occurred during translation. Please try again.",
             detected_language := none }, st', n)

end LingoAPI

/-! ## Helper lemmas -/

/-- The JS remainder (`Int.tmod`) of a nonpositive dividend is
nonpositive. -/
theorem tmod_nonpos_of_nonpos (a b : Int) (h : a ≤ 0) : a.tmod b ≤ 0 := by
  cases a with
  | ofNat m =>
      have hm : m = 0 := by
        have h2 : (Int.ofNat m) = (m : Int) := rfl
        rw [h2] at h
        omega
      subst hm; simp
  | negSucc m =>
      cases b with
      | ofNat n =>
          show -Int.ofNat (Nat.succ m % n) ≤ 0
          have h3 : (0 : Int) ≤ Int.ofNat (Nat.succ m % n) := Int.ofNat_nonneg _
          omega
      | negSucc n =>
          show -Int.ofNat (Nat.succ m % Nat.succ n) ≤ 0
          have h3 : (0 : Int) ≤ Int.ofNat (Nat.succ m % Nat.succ n) := Int.ofNat_nonneg _
          omega

/-! ## C9 — time-remaining formatting -/

/-- C9: `formatTimeRemaining` is a pure function from a millisecond
duration to a display string: every non-positive input yields `<1m`
(never a rendering with a negative number); a duration of at least one
whole hour yields `Hh Mm`; a positive duration with at least one whole
minute but no whole hour yields `Mm`; any other positive duration
yields `<1m`. -/
theorem formatTimeRemaining_spec (ms : Int) :
    (ms ≤ 0 → SessionManager.formatTimeRemaining ms = "<1m") ∧
    (1000 * 60 * 60 ≤ ms →
      SessionManager.formatTimeRemaining ms =
        toString (Int.fdiv ms (1000 * 60 * 60)) ++ "h " ++
        toString (Int.fdiv (Int.tmod ms (1000 * 60 * 60)) (1000 * 60)) ++ "m") ∧
    (1000 * 60 ≤ ms → ms < 1000 * 60 * 60 →
      SessionManager.formatTimeRemaining ms =
        toString (Int.fdiv ms (1000 * 60)) ++ "m") ∧
    (0 < ms → ms < 1000 * 60 →
      SessionManager.formatTimeRemaining ms = "<1m") := by
  refine ⟨?_, ?_, ?_, ?_⟩
  · intro h
    unfold SessionManager.formatTimeRemaining
    have hh : Int.fdiv ms (1000 * 60 * 60) ≤ 0 := by
      rw [Int.fdiv_eq_ediv ms (by omega)]
      omega
    have hm0 : Int.tmod ms (1000 * 60 * 60) ≤ 0 := tmod_nonpos_of_nonpos _ _ h
    have hm : Int.fdiv (Int.tmod ms (1000 * 60 * 60)) (1000 * 60) ≤ 0 := by
      rw [Int.fdiv_eq_ediv _ (by omega)]
      omega
    rw [if_neg (by omega), if_neg (by omega)]
  · intro h
    unfold SessionManager.formatTimeRemaining
    have hh : 1 ≤ Int.fdiv ms (1000 * 60 * 60) := by
      rw [Int.fdiv_eq_ediv ms (by omega)]
      omega
    rw [if_pos (by omega)]
  · intro h1 h2
    unfold SessionManager.formatTimeRemaining
    have hh : Int.fdiv ms (1000 * 60 * 60) = 0 := by
      rw [Int.fdiv_eq_ediv ms (by omega)]
      omega
    have hmod : Int.tmod ms (1000 * 60 * 60) = ms := by
      rw [Int.tmod_eq_emod (by omega) (by omega)]
      omega
    have hm : 1 ≤ Int.fdiv ms (1000 * 60) := by
      rw [Int.fdiv_eq_ediv ms (by omega)]
      omega
    rw [if_neg (by omega), hmod, if_pos (by omega)]
  · intro h1 h2
    unfold SessionManager.formatTimeRemaining
    have hh : Int.fdiv ms (1000 * 60 * 60) = 0 := by
      rw [Int.fdiv_eq_ediv ms (by omega)]
      omega
    have hmod : Int.tmod ms (1000 * 60 * 60) = ms := by
      rw [Int.tmod_eq_emod (by omega) (by omega)]
      omega
    have hm : Int.fdiv ms (1000 * 60) = 0 := by
      rw [Int.fdiv_eq_ediv ms (by omega)]
      omega
    rw [if_neg (by omega), hmod, if_neg (by omega)]

/-- Witness for C9: a negative duration renders as `<1m`, and
2 hours 1 minute renders as `2h 1m`. -/
theorem formatTimeRemaining_spec_witness :
    SessionManager.formatTimeRemaining (-5000) = "<1m" ∧
    SessionManager.formatTimeRemaining 7260000 = "2h 1m" := by
  constructor
  · exact (formatTimeRemaining_spec (-5000)).1 (by decide)
  · have h := (formatTimeRemaining_spec 7260000).2.1 (by decide)
    rw [h]
    rfl

/-! ## C10 — backup with no snapshot is a no-op -/

/-- C10: calling `backupWorkInProgress` with no snapshot argument
leaves the manager state — in particular the work-in-progress backup
slot — unchanged, and forced expiry via `expireSession`, which invokes
the backup with no argument, never overwrites or removes a previously
stored backup. -/
theorem backupWorkInProgress_none_noop (now : Int)
    (st : SessionManager.ManagerState) :
    SessionManager.backupWorkInProgress none now st = st ∧
    (SessionManager.expireSession now st).storage.workBackup =
      st.storage.workBackup := by
  constructor
  · rfl
  · simp [SessionManager.expireSession, SessionManager.backupWorkInProgress,
          SessionManager.clearSession, SessionManager.clearTimers]

/-! ## C7 — work-in-progress restore freshness filter -/

/-- C7: `restoreWorkInProgress()` returns the stored snapshot iff
`now − capturedAt < 24h`, returns `null` otherwise, and in neither
case mutates or deletes the stored snapshot (or any other state). -/
theorem restoreWorkInProgress_spec (now : Int)
    (st : SessionManager.ManagerState) (w : WorkInProgress)
    (h : st.storage.workBackup = .value w) :
    ((SessionManager.restoreWorkInProgress now st).1 = some w ↔
      now - w.timestamp < 24 * 60 * 60 * 1000) ∧
    (¬ now - w.timestamp < 24 * 60 * 60 * 1000 →
      (SessionManager.restoreWorkInProgress now st).1 = none) ∧
    (SessionManager.restoreWorkInProgress now st).2 = st := by
  simp only [SessionManager.restoreWorkInProgress, h]
  by_cases hf : now - w.timestamp < 24 * 60 * 60 * 1000
  · rw [if_pos hf]
    exact ⟨by simp; omega, fun hc => absurd hf hc, rfl⟩
  · rw [if_neg hf]
    exact ⟨by simp; omega, fun _ => rfl, rfl⟩

/-- Witness for C7: a snapshot captured 1000 ms ago is returned and the
state is untouched; one captured 25 hours ago is filtered out, also
leaving the state untouched. -/
theorem restoreWorkInProgress_spec_witness :
    (SessionManager.restoreWorkInProgress 1000
        ⟨⟨.absent, .value ⟨"draft", "en", "{}", 0⟩, .absent, .absent⟩,
          0, none, none, none⟩).1 = some ⟨"draft", "en", "{}", 0⟩ ∧
    (SessionManager.restoreWorkInProgress (25 * 60 * 60 * 1000)
        ⟨⟨.absent, .value ⟨"draft", "en", "{}", 0⟩, .absent, .absent⟩,
          0, none, none, none⟩).1 = none := by
  constructor
  · exact (restoreWorkInProgress_spec 1000
      ⟨⟨.absent, .value ⟨"draft", "en", "{}", 0⟩, .absent, .absent⟩,
        0, none, none, none⟩ ⟨"draft", "en", "{}", 0⟩ rfl).1.mpr (by decide)
  · exact (restoreWorkInProgress_spec (25 * 60 * 60 * 1000)
      ⟨⟨.absent, .value ⟨"draft", "en", "{}", 0⟩, .absent, .absent⟩,
        0, none, none, none⟩ ⟨"draft", "en", "{}", 0⟩ rfl).2.1 (by decide)

/-! ## C1 — session validity and expiry-on-read -/

/-- Counterexample for C1 as stated: at the instant `now = expiresAt`
(so `now ≥ expiresAt`), `getCurrentSession` neither removes the
session record from storage nor reports the session as invalid — it
returns the record unchanged, because the code expires only when
`now > expiresAt` (strict). -/
theorem getCurrentSession_at_expiry_counterexample :
    ¬ ((SessionManager.getCurrentSession 1000
          ⟨⟨.value ⟨"u1", "e", "n", 0, 0, 1000, "sid", "dev"⟩,
            .absent, .absent, .absent⟩, 0, none, none, none⟩).1 = none ∧
       (SessionManager.getCurrentSession 1000
          ⟨⟨.value ⟨"u1", "e", "n", 0, 0, 1000, "sid", "dev"⟩,
            .absent, .absent, .absent⟩, 0, none, none, none⟩).2.storage.session
         = StoredVal.absent) := by
  decide

/-- C1 (amended): `isSessionValid()` is true iff a session record
exists in storage and `now < expiresAt`; the instant `now > expiresAt`
(strictly), any call that reads the session removes the record from
storage and reports the session as invalid; at `now = expiresAt`
exactly, `isSessionValid` already reports the session invalid but
`getCurrentSession` still returns it and the record stays in
storage. -/
theorem isSessionValid_spec (now : Int) (st : SessionManager.ManagerState)
    (sd : SessionData) (h : st.storage.session = .value sd) :
    ((SessionManager.isSessionValid now st).1 = true ↔ now < sd.expiresAt) ∧
    (now > sd.expiresAt →
      (SessionManager.getCurrentSession now st).1 = none ∧
      (SessionManager.getCurrentSession now st).2.storage.session = .absent ∧
      (SessionManager.isSessionValid now st).1 = false ∧
      (SessionManager.isSessionValid now st).2.storage.session = .absent) ∧
    (now = sd.expiresAt →
      (SessionManager.isSessionValid now st).1 = false ∧
      SessionManager.getCurrentSession now st = (some sd, st)) ∧
    (∀ st2 : SessionManager.ManagerState,
      st2.storage.session = StoredVal.absent →
      (SessionManager.isSessionValid now st2).1 = false) := by
  refine ⟨?_, ?_, ?_, ?_⟩
  · simp only [SessionManager.isSessionValid, SessionManager.getCurrentSession, h]
    by_cases hgt : now > sd.expiresAt
    · rw [if_pos hgt]
      simp
      omega
    · rw [if_neg hgt]
      simp
  · intro hgt
    simp only [SessionManager.isSessionValid, SessionManager.getCurrentSession, h]
    rw [if_pos hgt]
    simp [SessionManager.expireSession, SessionManager.backupWorkInProgress,
          SessionManager.clearSession, SessionManager.clearTimers]
  · intro heq
    simp only [SessionManager.isSessionValid, SessionManager.getCurrentSession, h]
    rw [if_neg (by omega)]
    simp
    omega
  · intro st2 h2
    simp only [SessionManager.isSessionValid, SessionManager.getCurrentSession, h2]

/-- Witness for C1: a session expiring at 100 read at 50 is valid; the
same session read at 101 is removed and reported invalid. -/
theorem isSessionValid_spec_witness :
    (SessionManager.isSessionValid 50
      ⟨⟨.value ⟨"u1", "e", "n", 0, 0, 100, "sid", "dev"⟩,
        .absent, .absent, .absent⟩, 0, none, none, none⟩).1 = true ∧
    (SessionManager.isSessionValid 101
      ⟨⟨.value ⟨"u1", "e", "n", 0, 0, 100, "sid", "dev"⟩,
        .absent, .absent, .absent⟩, 0, none, none, none⟩).1 = false := by
  constructor
  · exact (isSessionValid_spec 50
      ⟨⟨.value ⟨"u1", "e", "n", 0, 0, 100, "sid", "dev"⟩,
        .absent, .absent, .absent⟩, 0, none, none, none⟩
      ⟨"u1", "e", "n", 0, 0, 100, "sid", "dev"⟩ rfl).1.mpr (by decide)
  · exact ((isSessionValid_spec 101
      ⟨⟨.value ⟨"u1", "e", "n", 0, 0, 100, "sid", "dev"⟩,
        .absent, .absent, .absent⟩, 0, none, none, none⟩
      ⟨"u1", "e", "n", 0, 0, 100, "sid", "dev"⟩ rfl).2.1 (by decide)).2.2.1

/-! ## C2 — activity-based sliding extension -/

/-- Counterexample for C2 as stated: an over-threshold activity signal
that does extend the session (remaining lifetime below half the
session duration) does NOT re-arm the warning and expiry timers — the
extension goes through `updateSessionActivity`, which never calls
`startSessionTimers`, so both timers keep their previous deadlines
instead of moving to the new expiry `900000 + SESSION_DURATION =
87300000`. -/
theorem handleUserActivity_timers_counterexample :
    ¬ ((SessionManager.handleUserActivity 900000
          ⟨⟨.value ⟨"u", "e", "n", 0, 0, 1000000, "s", "d"⟩,
            .absent, .absent, .absent⟩,
           0, none, some 700000, some 1000000⟩).warningTimer
         = some (87300000 - 300000) ∧
       (SessionManager.handleUserActivity 900000
          ⟨⟨.value ⟨"u", "e", "n", 0, 0, 1000000, "s", "d"⟩,
            .absent, .absent, .absent⟩,
           0, none, some 700000, some 1000000⟩).expiryTimer
         = some 87300000) := by
  decide

/-- C2 (amended): for every user-activity signal received while a
session exists: if more than 30 seconds (`ACTIVITY_THRESHOLD`) have
elapsed since the last recorded activity, the manager updates
`lastActivity` to `now` and — only when the remaining lifetime
`expiresAt − now` is below half of `SESSION_DURATION` — sets
`expiresAt` to `now + SESSION_DURATION`, writing the record to
storage; the timers are NOT re-armed and keep their previous
deadlines; signals arriving within the 30-second window cause no state
change at all. -/
theorem handleUserActivity_spec (now : Int)
    (st : SessionManager.ManagerState) :
    (now - st.lastActivityTime ≤ SessionManager.ACTIVITY_THRESHOLD →
      SessionManager.handleUserActivity now st = st) ∧
    (∀ sd : SessionData,
      now - st.lastActivityTime > SessionManager.ACTIVITY_THRESHOLD →
      st.storage.session = .value sd → now ≤ sd.expiresAt →
      SessionManager.handleUserActivity now st =
        SessionManager.saveSession
          { sd with
              lastActivity := now
              expiresAt :=
                if sd.expiresAt - now < SessionManager.SESSION_DURATION / 2
                then now + SessionManager.SESSION_DURATION
                else sd.expiresAt }
          { st with lastActivityTime := now }) := by
  constructor
  · intro h
    unfold SessionManager.handleUserActivity
    rw [if_neg (by omega)]
  · intro sd hthr hsess hle
    unfold SessionManager.handleUserActivity
    rw [if_pos hthr]
    simp only [SessionManager.updateSessionActivity,
      SessionManager.getCurrentSession, hsess]
    rw [if_neg (by omega)]
    simp only [SessionManager.saveSession]
    split_ifs <;> rfl

/-- Witness for C2: a quick second signal (10 s after the last) leaves
the state unchanged; an over-threshold signal on a session with
100 s of life left extends it to `now + SESSION_DURATION` while both
timers keep their old deadlines. -/
theorem handleUserActivity_spec_witness :
    SessionManager.handleUserActivity 10000
      ⟨⟨.value ⟨"u", "e", "n", 0, 0, 1000000, "s", "d"⟩,
        .absent, .absent, .absent⟩, 0, none, some 700000, some 1000000⟩ =
      ⟨⟨.value ⟨"u", "e", "n", 0, 0, 1000000, "s", "d"⟩,
        .absent, .absent, .absent⟩, 0, none, some 700000, some 1000000⟩ ∧
    SessionManager.handleUserActivity 900000
      ⟨⟨.value ⟨"u", "e", "n", 0, 0, 1000000, "s", "d"⟩,
        .absent, .absent, .absent⟩, 0, none, some 700000, some 1000000⟩ =
      ⟨⟨.value ⟨"u", "e", "n", 0, 900000, 87300000, "s", "d"⟩,
        .absent, .absent, .absent⟩, 900000, none, some 700000, some 1000000⟩ := by
  constructor
  · exact (handleUserActivity_spec 10000
      ⟨⟨.value ⟨"u", "e", "n", 0, 0, 1000000, "s", "d"⟩,
        .absent, .absent, .absent⟩, 0, none, some 700000, some 1000000⟩).1
      (by decide)
  · have h := (handleUserActivity_spec 900000
      ⟨⟨.value ⟨"u", "e", "n", 0, 0, 1000000, "s", "d"⟩,
        .absent, .absent, .absent⟩, 0, none, some 700000, some 1000000⟩).2
      ⟨"u", "e", "n", 0, 0, 1000000, "s", "d"⟩ (by decide) rfl (by decide)
    rw [h]
    decide

/-! ## C4 — tolerance of missing/corrupt persisted records -/

/-- Counterexample for C4 as stated: reading the user table when its
key holds malformed JSON returns the empty list but does NOT clear the
corrupt key — the slot still holds the corrupt value after the
read. -/
theorem getAllUsers_corrupt_counterexample :
    ¬ ((UserStorageManager.getAllUsers
          ⟨.absent, .absent, .corrupt, .absent⟩).2.users
        = StoredVal.absent) := by
  decide

/-- C4 (amended): every read of a persisted key that encounters
missing or malformed JSON returns an absent value (empty list or null)
to the caller and never raises; however only the session-record read
clears the corrupt key from storage — the user-table, current-user and
work-in-progress reads leave the stored value untouched. -/
theorem corrupt_reads_spec (s : Storage)
    (st : SessionManager.ManagerState) (now : Int) :
    (s.users = .absent ∨ s.users = .corrupt →
      UserStorageManager.getAllUsers s = ([], s)) ∧
    (s.currentUser = .absent ∨ s.currentUser = .corrupt →
      UserStorageManager.getCurrentUser s = (none, s)) ∧
    (st.storage.workBackup = .corrupt →
      SessionManager.restoreWorkInProgress now st = (none, st)) ∧
    (st.storage.session = .corrupt →
      (SessionManager.getCurrentSession now st).1 = none ∧
      (SessionManager.getCurrentSession now st).2.storage.session
        = StoredVal.absent) := by
  refine ⟨?_, ?_, ?_, ?_⟩
  · intro h
    cases h with
    | inl h => simp [UserStorageManager.getAllUsers, h]
    | inr h => simp [UserStorageManager.getAllUsers, h]
  · intro h
    cases h with
    | inl h => simp [UserStorageManager.getCurrentUser, h]
    | inr h => simp [UserStorageManager.getCurrentUser, h]
  · intro h
    simp [SessionManager.restoreWorkInProgress, h]
  · intro h
    simp [SessionManager.getCurrentSession, h, SessionManager.clearSession,
          SessionManager.clearTimers]

/-- Witness for C4: with every key corrupt, the user table reads as
`[]`, the current user and the backup read as `null`, and only the
session read clears its key. -/
theorem corrupt_reads_spec_witness :
    UserStorageManager.getAllUsers ⟨.corrupt, .corrupt, .corrupt, .corrupt⟩ =
      ([], ⟨.corrupt, .corrupt, .corrupt, .corrupt⟩) ∧
    (SessionManager.getCurrentSession 0
      ⟨⟨.corrupt, .corrupt, .corrupt, .corrupt⟩,
        0, none, none, none⟩).2.storage.session = StoredVal.absent := by
  constructor
  · exact (corrupt_reads_spec ⟨.corrupt, .corrupt, .corrupt, .corrupt⟩
      ⟨⟨.corrupt, .corrupt, .corrupt, .corrupt⟩, 0, none, none, none⟩ 0).1
      (Or.inr rfl)
  · exact ((corrupt_reads_spec ⟨.corrupt, .corrupt, .corrupt, .corrupt⟩
      ⟨⟨.corrupt, .corrupt, .corrupt, .corrupt⟩, 0, none, none, none⟩ 0).2.2.2
      rfl).2

/-! ## C6 — conversation request validation order -/

/-- C6: `createConversation` validates its request in the fixed order
replica id → name → greeting presence → greeting length ≤ 500 →
context length ≤ 2000, and returns the error message of the first
violated rule only; in particular a request missing both `replica_id`
and `conversation_name` yields the replica-id error; the failure is
returned by `createConversation` with no network call. -/
theorem validateConversationRequest_order (r : TavusAPI.ConversationRequest) :
    ((r.replica_id = "" ∨ jsTrim r.replica_id = "") →
      TavusAPI.validateConversationRequest r =
        some "Replica ID is required for conversation creation") ∧
    (¬(r.replica_id = "" ∨ jsTrim r.replica_id = "") →
     (r.conversation_name = "" ∨ jsTrim r.conversation_name = "") →
      TavusAPI.validateConversationRequest r =
        some "Conversation name is required") ∧
    (¬(r.replica_id = "" ∨ jsTrim r.replica_id = "") →
     ¬(r.conversation_name = "" ∨ jsTrim r.conversation_name = "") →
     (r.custom_greeting = "" ∨ jsTrim r.custom_greeting = "") →
      TavusAPI.validateConversationRequest r =
        some "Custom greeting is required for conversation") ∧
    (¬(r.replica_id = "" ∨ jsTrim r.replica_id = "") →
     ¬(r.conversation_name = "" ∨ jsTrim r.conversation_name = "") →
     ¬(r.custom_greeting = "" ∨ jsTrim r.custom_greeting = "") →
     r.custom_greeting.length > 500 →
      TavusAPI.validateConversationRequest r =
        some "Custom greeting exceeds maximum length of 500 characters") ∧
    (¬(r.replica_id = "" ∨ jsTrim r.replica_id = "") →
     ¬(r.conversation_name = "" ∨ jsTrim r.conversation_name = "") →
     ¬(r.custom_greeting = "" ∨ jsTrim r.custom_greeting = "") →
     ¬(r.custom_greeting.length > 500) →
     (TavusAPI.ctxTruthy r.conversational_context ∧
        (r.conversational_context.getD "").length > 2000) →
      TavusAPI.validateConversationRequest r =
        some "Conversational context exceeds maximum length of 2000 characters") ∧
    (∀ (e : String) (oracle : Nat → NetOutcome TavusAPI.TavusData)
       (now : Int) (st : RateState) (usage : TavusAPI.ConversationUsage),
      TavusAPI.validateConversationRequest r = some e →
      TavusAPI.createConversation r oracle now st usage =
        ({ success := false, conversation_id := none, conversation_url := none,
           status := none, error := some e, expires_at := none },
         st, usage, 0)) := by
  refine ⟨?_, ?_, ?_, ?_, ?_, ?_⟩
  · intro h1
    simp only [TavusAPI.validateConversationRequest]
    rw [if_pos h1]
  · intro h1 h2
    simp only [TavusAPI.validateConversationRequest]
    rw [if_neg h1, if_pos h2]
  · intro h1 h2 h3
    simp only [TavusAPI.validateConversationRequest]
    rw [if_neg h1, if_neg h2, if_pos h3]
  · intro h1 h2 h3 h4
    simp only [TavusAPI.validateConversationRequest]
    rw [if_neg h1, if_neg h2, if_neg h3, if_pos h4]
  · intro h1 h2 h3 h4 h5
    simp only [TavusAPI.validateConversationRequest]
    rw [if_neg h1, if_neg h2, if_neg h3, if_neg h4, if_pos h5]
  · intro e oracle now st usage hval
    simp only [TavusAPI.createConversation, hval]

/-- Witness for C6: a request missing both `replica_id` and
`conversation_name` reports specifically the replica-id error, and
`createConversation` returns it with zero network calls. -/
theorem validateConversationRequest_order_witness :
    TavusAPI.validateConversationRequest ⟨"", "", "hi", none⟩ =
      some "Replica ID is required for conversation creation" ∧
    TavusAPI.createConversation ⟨"", "", "hi", none⟩
        (fun _ => NetOutcome.timeout) 0 ⟨0, 0⟩ ⟨0, 250, 250, 0⟩ =
      ({ success := false, conversation_id := none, conversation_url := none,
         status := none,
         error := some "Replica ID is required for conversation creation",
         expires_at := none },
       ⟨0, 0⟩, ⟨0, 250, 250, 0⟩, 0) := by
  constructor
  · exact (validateConversationRequest_order ⟨"", "", "hi", none⟩).1
      (Or.inl rfl)
  · exact (validateConversationRequest_order ⟨"", "", "hi", none⟩).2.2.2.2.2
      "Replica ID is required for conversation creation"
      (fun _ => NetOutcome.timeout) 0 ⟨0, 0⟩ ⟨0, 250, 250, 0⟩
      ((validateConversationRequest_order ⟨"", "", "hi", none⟩).1 (Or.inl rfl))

/-! ## C8 — same-language translation shortcut -/

/-- C8: for every valid translation request whose source language
equals its target language, `translateText` succeeds with
`translated_text` equal to the input text and `detected_language`
equal to the source language, performing zero network calls and
leaving the rate-limiter state (and so the quota) untouched. -/
theorem translateText_same_language (r : LingoAPI.TranslationRequest)
    (l : String) (oracle : Nat → NetOutcome LingoAPI.LingoData)
    (now : Int) (st : RateState)
    (hsrc : r.source_language = some l) (htgt : r.target_language = l)
    (hvalid : LingoAPI.validateRequest r = none) :
    LingoAPI.translateText r oracle now st =
      ({ success := true, translated_text := some r.text, error := none,
         detected_language := some l }, st, 0) := by
  have htne : r.target_language ≠ "" := by
    intro hc
    simp only [LingoAPI.validateRequest] at hvalid
    split_ifs at hvalid with h1 h2
  simp only [LingoAPI.translateText, hvalid, hsrc]
  have hcond : (l ≠ "" && l = r.target_language) = true := by
    rw [htgt] at htne
    simp [htne, htgt]
  rw [hcond]
  simp [hsrc]

/-- Witness for C8: translating `"Hello"` from `en` to `en` returns
the original text tagged `en`, with no network call and the limiter
state unchanged. -/
theorem translateText_same_language_witness :
    LingoAPI.translateText ⟨"Hello", "en", some "en"⟩
        (fun _ => NetOutcome.timeout) 0 ⟨7, 0⟩ =
      ({ success := true, translated_text := some "Hello", error := none,
         detected_language := some "en" }, ⟨7, 0⟩, 0) :=
  translateText_same_language ⟨"Hello", "en", some "en"⟩ "en"
    (fun _ => NetOutcome.timeout) 0 ⟨7, 0⟩ rfl rfl (by decide)

/-! ## Helper lemmas for the HTTP clients -/

/-- Within the same rolling hour the Tavus limiter does not reset. -/
theorem tavus_checkRateLimit_no_reset (now : Int) (st : RateState)
    (h : now - st.lastResetTime < 1000 * 60 * 60) :
    TavusAPI.checkRateLimit now st =
      (decide (st.requestCount < TavusAPI.rateLimit), st) := by
  unfold TavusAPI.checkRateLimit
  rw [if_neg (by omega)]

/-- Once at least an hour has elapsed the Tavus limiter resets and
admits the request. -/
theorem tavus_checkRateLimit_reset (now : Int) (st : RateState)
    (h : now - st.lastResetTime ≥ 1000 * 60 * 60) :
    TavusAPI.checkRateLimit now st = (true, ⟨0, now⟩) := by
  unfold TavusAPI.checkRateLimit
  rw [if_pos (by omega)]
  rfl

/-- Within the same rolling hour the Lingo limiter does not reset. -/
theorem lingo_checkRateLimit_no_reset (now : Int) (st : RateState)
    (h : now - st.lastResetTime < 1000 * 60 * 60) :
    LingoAPI.checkRateLimit now st =
      (decide (st.requestCount < LingoAPI.rateLimit), st) := by
  unfold LingoAPI.checkRateLimit
  rw [if_neg (by omega)]

/-- Once at least an hour has elapsed the Lingo limiter resets and
admits the request. -/
theorem lingo_checkRateLimit_reset (now : Int) (st : RateState)
    (h : now - st.lastResetTime ≥ 1000 * 60 * 60) :
    LingoAPI.checkRateLimit now st = (true, ⟨0, now⟩) := by
  unfold LingoAPI.checkRateLimit
  rw [if_pos (by omega)]
  rfl

/-- A Tavus request whose first fetch succeeds, made under quota within
the hour, performs exactly one fetch and increments the counter. -/
theorem tavus_makeRequest_ok_step {α : Type} (ep me : String) (d : α)
    (now : Int) (st : RateState) (attempt : Nat)
    (h1 : now - st.lastResetTime < 1000 * 60 * 60)
    (h2 : st.requestCount < TavusAPI.rateLimit) :
    TavusAPI.makeRequest ep me (fun _ => NetOutcome.ok d) now st attempt =
      (.ok d, { st with requestCount := st.requestCount + 1 }, 1) := by
  rw [TavusAPI.makeRequest, tavus_checkRateLimit_no_reset now st h1]
  have h3 : decide (st.requestCount < TavusAPI.rateLimit) = true := by
    simpa using h2
  rw [h3]

/-- A Lingo request whose first fetch succeeds, made under quota within
the hour, performs exactly one fetch and increments the counter
(whatever response value it then builds). -/
theorem lingo_makeRequest_ok_step (d : LingoAPI.LingoData)
    (now : Int) (st : RateState) (attempt : Nat)
    (h1 : now - st.lastResetTime < 1000 * 60 * 60)
    (h2 : st.requestCount < LingoAPI.rateLimit) :
    (LingoAPI.makeRequest (fun _ => NetOutcome.ok d) now st attempt).2 =
      ({ st with requestCount := st.requestCount + 1 }, 1) := by
  rw [LingoAPI.makeRequest, lingo_checkRateLimit_no_reset now st h1]
  have h3 : decide (st.requestCount < LingoAPI.rateLimit) = true := by
    simpa using h2
  rw [h3]
  cases hd : d.translated_text <;> simp [hd]

/-- The Tavus request wrapper performs at most `k + 1` fetches when at
most `k` retries remain. -/
theorem tavus_makeRequest_count_le {α : Type} (ep me : String)
    (oracle : Nat → NetOutcome α) (now : Int) :
    ∀ (k attempt : Nat) (st : RateState),
      TavusAPI.maxRetries + 1 - attempt ≤ k →
      (TavusAPI.makeRequest ep me oracle now st attempt).2.2 ≤ k + 1 := by
  intro k
  induction k with
  | zero =>
      intro attempt st h
      rw [TavusAPI.makeRequest]
      rcases hc1 : TavusAPI.checkRateLimit now st with ⟨b, st1⟩
      cases b
      · simp [hc1]
      · cases ho : oracle attempt with
        | ok d => simp [hc1, ho]
        | httpErr status m =>
            simp only [hc1, ho]
            rw [dif_neg (by simp only [TavusAPI.maxRetries] at h ⊢; omega)]
        | timeout =>
            simp only [hc1, ho]
            rw [dif_neg (by simp only [TavusAPI.maxRetries] at h ⊢; omega)]
        | netErr =>
            simp only [hc1, ho]
            rw [dif_neg (by simp only [TavusAPI.maxRetries] at h ⊢; omega)]
        | otherErr msg => simp [hc1, ho]
  | succ k ih =>
      intro attempt st h
      rw [TavusAPI.makeRequest]
      rcases hc1 : TavusAPI.checkRateLimit now st with ⟨b, st1⟩
      cases b
      · simp [hc1]
      · cases ho : oracle attempt with
        | ok d => simp [hc1, ho]
        | httpErr status m =>
            simp only [hc1, ho]
            by_cases hc : 500 ≤ status ∧ attempt ≤ TavusAPI.maxRetries
            · rw [dif_pos hc]
              have hih := ih (attempt + 1)
                { st1 with requestCount := st1.requestCount + 1 }
                (by simp only [TavusAPI.maxRetries] at h hc ⊢; omega)
              rcases hm : TavusAPI.makeRequest ep me oracle now
                  { st1 with requestCount := st1.requestCount + 1 }
                  (attempt + 1) with ⟨r, st3, n⟩
              rw [hm] at hih
              simp only [hm]
              simp at hih ⊢
              omega
            · rw [dif_neg hc]
              simp
        | timeout =>
            simp only [hc1, ho]
            by_cases hc : attempt ≤ TavusAPI.maxRetries
            · rw [dif_pos hc]
              have hih := ih (attempt + 1)
                { st1 with requestCount := st1.requestCount + 1 }
                (by simp only [TavusAPI.maxRetries] at h hc ⊢; omega)
              rcases hm : TavusAPI.makeRequest ep me oracle now
                  { st1 with requestCount := st1.requestCount + 1 }
                  (attempt + 1) with ⟨r, st3, n⟩
              rw [hm] at hih
              simp only [hm]
              simp at hih ⊢
              omega
            · rw [dif_neg hc]
              simp
        | netErr =>
            simp only [hc1, ho]
            by_cases hc : attempt ≤ TavusAPI.maxRetries
            · rw [dif_pos hc]
              have hih := ih (attempt + 1)
                { st1 with requestCount := st1.requestCount + 1 }
                (by simp only [TavusAPI.maxRetries] at h hc ⊢; omega)
              rcases hm : TavusAPI.makeRequest ep me oracle now
                  { st1 with requestCount := st1.requestCount + 1 }
                  (attempt + 1) with ⟨r, st3, n⟩
              rw [hm] at hih
              simp only [hm]
              simp at hih ⊢
              omega
            · rw [dif_neg hc]
              simp
        | otherErr msg => simp [hc1, ho]

/-- A non-5xx HTTP failure on the first attempt is not retried: the
wrapper performs at most one fetch and throws the mapped message. -/
theorem tavus_makeRequest_4xx_no_retry {α : Type} (ep me : String)
    (oracle : Nat → NetOutcome α) (now : Int) (st : RateState)
    (status : Nat) (m : String)
    (ho : oracle 1 = .httpErr status m) (hs : status < 500) :
    (TavusAPI.makeRequest ep me oracle now st 1).2.2 ≤ 1 ∧
    (∃ e st', TavusAPI.makeRequest ep me oracle now st 1 =
      (.error e, st', (TavusAPI.makeRequest ep me oracle now st 1).2.2)) := by
  rw [TavusAPI.makeRequest]
  rcases hc1 : TavusAPI.checkRateLimit now st with ⟨b, st1⟩
  cases b
  · simp only [hc1]
    exact ⟨by simp, ⟨"Rate limit exceeded. Please try again later.", st1, by simp⟩⟩
  · simp only [hc1, ho]
    rw [dif_neg (by omega)]
    exact ⟨by simp,
      ⟨TavusAPI.statusMessage status m,
       { st1 with requestCount := st1.requestCount + 1 }, by simp⟩⟩

/-! ## C3 — conversation status polling -/

/-- Counterexample for C3 as stated: `getConversationStatus` does NOT
perform a single GET with no retry — it goes through the shared
`makeRequest` wrapper, which retries on HTTP 5xx, so with a server
answering 500 on every attempt it performs 4 fetches, not 1. -/
theorem getConversationStatus_counterexample :
    ¬ ((TavusAPI.getConversationStatus "c1"
          (fun _ => NetOutcome.httpErr 500 "boom") 0 ⟨0, 0⟩).2.2 = 1) := by
  have h4 : (TavusAPI.getConversationStatus "c1"
      (fun _ => NetOutcome.httpErr 500 "boom") 0 ⟨0, 0⟩).2.2 = 4 := by
    simp [TavusAPI.getConversationStatus, TavusAPI.makeRequest,
          TavusAPI.checkRateLimit, TavusAPI.rateLimit, TavusAPI.maxRetries]
  rw [h4]
  decide

/-- C3 (amended): `getConversationStatus(id)` performs its GET through
the shared retrying request path — at most `maxRetries + 1 = 4`
fetches in total, with no retry on a non-5xx HTTP failure (at most one
fetch there) — and returns `null` on every failure (rate-limit, HTTP
error, timeout, network error) instead of propagating an error to
the caller. -/
theorem getConversationStatus_spec (conversationId : String)
    (oracle : Nat → NetOutcome TavusAPI.TavusData) (now : Int)
    (st : RateState) :
    (TavusAPI.getConversationStatus conversationId oracle now st).2.2 ≤
      TavusAPI.maxRetries + 1 ∧
    (∀ (e : String) (st' : RateState) (n : Nat),
      TavusAPI.makeRequest ("/conversations/" ++ conversationId) "GET"
          oracle now st 1 = (.error e, st', n) →
      (TavusAPI.getConversationStatus conversationId oracle now st).1 = none) ∧
    (∀ (status : Nat) (m : String),
      oracle 1 = .httpErr status m → status < 500 →
      (TavusAPI.getConversationStatus conversationId oracle now st).2.2 ≤ 1 ∧
      (TavusAPI.getConversationStatus conversationId oracle now st).1
        = none) := by
  refine ⟨?_, ?_, ?_⟩
  · have hb := tavus_makeRequest_count_le
      ("/conversations/" ++ conversationId) "GET" oracle now
      TavusAPI.maxRetries 1 st (by simp [TavusAPI.maxRetries])
    rcases hm : TavusAPI.makeRequest ("/conversations/" ++ conversationId)
        "GET" oracle now st 1 with ⟨r, st', n⟩
    rw [hm] at hb
    cases r <;> simp [TavusAPI.getConversationStatus, hm] <;> simpa using hb
  · intro e st' n hm
    simp [TavusAPI.getConversationStatus, hm]
  · intro status m ho hs
    obtain ⟨hcount, e, st', hm⟩ := tavus_makeRequest_4xx_no_retry
      ("/conversations/" ++ conversationId) "GET" oracle now st status m ho hs
    constructor
    · rcases hn : TavusAPI.makeRequest ("/conversations/" ++ conversationId)
          "GET" oracle now st 1 with ⟨r, st2, n⟩
      rw [hn] at hcount hm
      cases r <;> simp [TavusAPI.getConversationStatus, hn] <;> simpa using hcount
    · rcases hn : TavusAPI.makeRequest ("/conversations/" ++ conversationId)
          "GET" oracle now st 1 with ⟨r, st2, n⟩
      rw [hn] at hm
      cases r with
      | error e2 => simp [TavusAPI.getConversationStatus, hn]
      | ok d => simp at hm

/-- Witness for C3: a 404 on the status GET yields `null` with a
single fetch and no retry. -/
theorem getConversationStatus_spec_witness :
    (TavusAPI.getConversationStatus "c1"
        (fun _ => NetOutcome.httpErr 404 "not found") 5 ⟨0, 0⟩).2.2 ≤ 1 ∧
    (TavusAPI.getConversationStatus "c1"
        (fun _ => NetOutcome.httpErr 404 "not found") 5 ⟨0, 0⟩).1 = none :=
  (getConversationStatus_spec "c1"
    (fun _ => NetOutcome.httpErr 404 "not found") 5 ⟨0, 0⟩).2.2
    404 "not found" rfl (by decide)

/-! ## C5 — rolling-hour rate limiter -/

/-- Runs `n` sequential top-level request attempts, threading the rate
state and summing the fetch counts. -/
def runCalls (f : RateState → RateState × Nat) : Nat → RateState → RateState × Nat
  | 0, st => (st, 0)
  | n + 1, st =>
      let p := f st
      let q := runCalls f n p.1
      (q.1, p.2 + q.2)

/-- Under quota and within the hour, `k` successful Tavus requests
perform one fetch each and raise the counter by `k`. -/
theorem tavus_runCalls_ok {α : Type} (ep me : String) (d : α) (now : Int) :
    ∀ (k : Nat) (st : RateState),
      now - st.lastResetTime < 1000 * 60 * 60 →
      st.requestCount + k ≤ TavusAPI.rateLimit →
      runCalls
          (fun s =>
            (TavusAPI.makeRequest ep me (fun _ => NetOutcome.ok d) now s 1).2)
          k st =
        ({ st with requestCount := st.requestCount + k }, k) := by
  intro k
  induction k with
  | zero => intro st h1 h2; simp [runCalls]
  | succ k ih =>
      intro st h1 h2
      rw [runCalls]
      rw [tavus_makeRequest_ok_step ep me d now st 1 h1 (by omega)]
      have hrec := ih { st with requestCount := st.requestCount + 1 }
        (by simpa using h1) (by simp; omega)
      simp only [hrec]
      have e1 : st.requestCount + 1 + k = st.requestCount + (k + 1) := by omega
      have e2 : 1 + k = k + 1 := by omega
      rw [e1, e2]

/-- Under quota and within the hour, `k` successful Lingo requests
perform one fetch each and raise the counter by `k`. -/
theorem lingo_runCalls_ok (ld : LingoAPI.LingoData) (now : Int) :
    ∀ (k : Nat) (st : RateState),
      now - st.lastResetTime < 1000 * 60 * 60 →
      st.requestCount + k ≤ LingoAPI.rateLimit →
      runCalls
          (fun s =>
            (LingoAPI.makeRequest (fun _ => NetOutcome.ok ld) now s 1).2)
          k st =
        ({ st with requestCount := st.requestCount + k }, k) := by
  intro k
  induction k with
  | zero => intro st h1 h2; simp [runCalls]
  | succ k ih =>
      intro st h1 h2
      rw [runCalls]
      rw [lingo_makeRequest_ok_step ld now st 1 h1 (by omega)]
      have hrec := ih { st with requestCount := st.requestCount + 1 }
        (by simpa using h1) (by simp; omega)
      simp only [hrec]
      have e1 : st.requestCount + 1 + k = st.requestCount + (k + 1) := by omega
      have e2 : 1 + k = k + 1 := by omega
      rw [e1, e2]

/-- C5: with hourly quota Q (50 for the conversation client, 100 for
the translation client) and a fresh limiter at `t0`, the first Q
request attempts within the same rolling hour each reach the network
(one fetch each) and raise the counter to Q; the (Q+1)-th attempt then
fails locally — a thrown rate-limit error with zero fetches — and once
more than one hour has elapsed since the last reset, the counter
resets to zero and requests are admitted (and fetched) again. -/
theorem rate_limiter_spec (t0 now : Int) (d : TavusAPI.TavusData)
    (ld : LingoAPI.LingoData) (hwin : now - t0 < 1000 * 60 * 60) :
    (runCalls
        (fun s =>
          (TavusAPI.makeRequest "/conversations" "POST"
            (fun _ => NetOutcome.ok d) now s 1).2)
        TavusAPI.rateLimit ⟨0, t0⟩ =
      (⟨TavusAPI.rateLimit, t0⟩, TavusAPI.rateLimit)) ∧
    (TavusAPI.makeRequest "/conversations" "POST" (fun _ => NetOutcome.ok d)
        now ⟨TavusAPI.rateLimit, t0⟩ 1 =
      (.error "Rate limit exceeded. Please try again later.",
       ⟨TavusAPI.rateLimit, t0⟩, 0)) ∧
    (∀ (st : RateState) (now2 : Int),
      now2 - st.lastResetTime > 1000 * 60 * 60 →
      TavusAPI.makeRequest "/conversations" "POST" (fun _ => NetOutcome.ok d)
          now2 st 1 = (.ok d, ⟨1, now2⟩, 1)) ∧
    (runCalls
        (fun s =>
          (LingoAPI.makeRequest (fun _ => NetOutcome.ok ld) now s 1).2)
        LingoAPI.rateLimit ⟨0, t0⟩ =
      (⟨LingoAPI.rateLimit, t0⟩, LingoAPI.rateLimit)) ∧
    (LingoAPI.makeRequest (fun _ => NetOutcome.ok ld) now
        ⟨LingoAPI.rateLimit, t0⟩ 1 =
      (.error "Rate limit exceeded. Please try again later.",
       ⟨LingoAPI.rateLimit, t0⟩, 0)) ∧
    (∀ (st : RateState) (now2 : Int),
      now2 - st.lastResetTime > 1000 * 60 * 60 →
      (LingoAPI.makeRequest (fun _ => NetOutcome.ok ld) now2 st 1).2 =
        (⟨1, now2⟩, 1)) := by
  refine ⟨?_, ?_, ?_, ?_, ?_, ?_⟩
  · have h := tavus_runCalls_ok "/conversations" "POST" d now
      TavusAPI.rateLimit ⟨0, t0⟩ (by simpa using hwin) (by simp)
    simpa using h
  · rw [TavusAPI.makeRequest,
        tavus_checkRateLimit_no_reset now ⟨TavusAPI.rateLimit, t0⟩
          (by simpa using hwin)]
    simp
  · intro st now2 hgt
    rw [TavusAPI.makeRequest, tavus_checkRateLimit_reset now2 st (by omega)]
  · have h := lingo_runCalls_ok ld now LingoAPI.rateLimit ⟨0, t0⟩
      (by simpa using hwin) (by simp)
    simpa using h
  · rw [LingoAPI.makeRequest,
        lingo_checkRateLimit_no_reset now ⟨LingoAPI.rateLimit, t0⟩
          (by simpa using hwin)]
    simp
  · intro st now2 hgt
    rw [LingoAPI.makeRequest, lingo_checkRateLimit_reset now2 st (by omega)]
    cases hd : ld.translated_text <;> simp [hd]

/-- Witness for C5: with the Tavus counter already at the quota of 50
inside the hour, the next request attempt throws the local rate-limit
error without any fetch; with the Lingo counter at its quota of 100,
likewise. -/
theorem rate_limiter_spec_witness :
    TavusAPI.makeRequest "/conversations" "POST"
        (fun _ => NetOutcome.ok
          (⟨none, none, none, none, none, none, none⟩ : TavusAPI.TavusData))
        10 ⟨TavusAPI.rateLimit, 0⟩ 1 =
      (.error "Rate limit exceeded. Please try again later.",
       ⟨TavusAPI.rateLimit, 0⟩, 0) ∧
    LingoAPI.makeRequest
        (fun _ => NetOutcome.ok (⟨none, none⟩ : LingoAPI.LingoData))
        10 ⟨LingoAPI.rateLimit, 0⟩ 1 =
      (.error "Rate limit exceeded. Please try again later.",
       ⟨LingoAPI.rateLimit, 0⟩, 0) :=
  ⟨(rate_limiter_spec 0 10 ⟨none, none, none, none, none, none, none⟩
      ⟨none, none⟩ (by decide)).2.1,
   (rate_limiter_spec 0 10 ⟨none, none, none, none, none, none, none⟩
      ⟨none, none⟩ (by decide)).2.2.2.2.1⟩
